import Mathlib

/-!
Shallow embedding of SciMarkdown's Python language helper
(`src/lang_helpers/python.py`, the current revision, and the legacy copy
`lang_helpers/python.py` at the repository root), the buffered,
length-framed stream-interception core described by the spec.

Bytes are modelled as `Nat` (a genuine transport byte is `< 256`); the
wire is a `List Nat`.  Machine-level `struct.pack('L', _)` (native byte
order, platform word size, i.e. 8-byte little-endian on the reference
x86-64 Linux platform) is modelled explicitly, including the
`struct.error` raised when the value does not fit, via `Option`.
-/

namespace SciMarkdown

/-- UTF-8 encoding of one Unicode scalar value, as CPython's
`str.encode('utf-8')` produces for each code point of the string. -/
def utf8Bytes (c : Char) : List Nat :=
  let n := c.toNat
  if n < 0x80 then [n]
  else if n < 0x800 then [0xC0 + n / 0x40, 0x80 + n % 0x40]
  else if n < 0x10000 then
    [0xE0 + n / 0x1000, 0x80 + n / 0x40 % 0x40, 0x80 + n % 0x40]
  else
    [0xF0 + n / 0x40000, 0x80 + n / 0x1000 % 0x40, 0x80 + n / 0x40 % 0x40,
     0x80 + n % 0x40]

/-- `s.encode('utf-8')`: byte sequence of the whole string. -/
def utf8Encode (s : String) : List Nat :=
  (s.data.map utf8Bytes).flatten

/-- An argument to `write`: Python `str` (text) or `bytes` (binary).
Lean's `Char` ranges over Unicode scalar values, matching encodable text. -/
inductive Data where
  | text (s : String)
  | binary (b : List Nat)
deriving DecidableEq

/-- Python `len(s)`: code-point count for `str`, byte count for `bytes`. -/
def pyLen : Data → Nat
  | .text s => s.length
  | .binary b => b.length

/-- The byte form `write` stores: `s` itself when `type(s) is bytes`,
otherwise `s.encode('utf-8')`  (python.py lines 14-17). -/
def encodeData : Data → List Nat
  | .text s => utf8Encode s
  | .binary b => b

/-- `struct.pack('L', n)` on x86-64 Linux, assuming `n < 2^64`:
the 8 little-endian bytes of `n`. -/
def packLE8 (n : Nat) : List Nat :=
  [n % 256, n / 256 % 256, n / 256 ^ 2 % 256, n / 256 ^ 3 % 256,
   n / 256 ^ 4 % 256, n / 256 ^ 5 % 256, n / 256 ^ 6 % 256, n / 256 ^ 7 % 256]

/-- `struct.pack('L', n)` including its failure mode: `struct.error`
(modelled as `none`) when `n` does not fit an unsigned long. -/
def packUL (n : Nat) : Option (List Nat) :=
  if n < 2 ^ 64 then some (packLE8 n) else none

/-- The frame wire format `real_flush` produces: the packed length field
immediately followed by the raw payload bytes. -/
def encodeFrame (n : Nat) (p : List Nat) : List Nat :=
  packLE8 n ++ p

/-- The state of `BufferedIOHelper` (current revision,
`src/lang_helpers/python.py`): the accumulation buffer `self.buffer`,
a list of the byte-sequences stored so far.  The real transport handle
(`self.text_io`) carries no state relevant to the claims; emitted bytes
are returned by the operations instead. -/
structure BufferedIOHelper where
  buffer : List (List Nat)
deriving DecidableEq

/-- `BufferedIOHelper.write` (current revision, lines 11-20): encode if
textual, append to the buffer, `return len(s)`. -/
def write (st : BufferedIOHelper) (s : Data) : BufferedIOHelper × Nat :=
  (⟨st.buffer ++ [encodeData s]⟩, pyLen s)

/-- `BufferedIOHelper.flush` (current revision, lines 22-24): a no-op. -/
def flush (st : BufferedIOHelper) : BufferedIOHelper :=
  st

/-- The payload `real_flush` writes after the length field: each buffered
piece in order (the `for binary_data in self.buffer` loop). -/
def payloadBytes (st : BufferedIOHelper) : List Nat :=
  st.buffer.flatten

/-- `BufferedIOHelper.real_flush` (current revision, lines 26-39):
pack `sum(len(s) for s in self.buffer)` as an unsigned long, write it,
write every buffered piece in order, then `self.buffer.clear()`.
Returns the bytes put on the wire and the post-state; `none` models the
`struct.error` escape when the total does not fit an unsigned long. -/
def real_flush (st : BufferedIOHelper) : Option (List Nat × BufferedIOHelper) :=
  match packUL ((st.buffer.map List.length).sum) with
  | some lenBytes => some (lenBytes ++ payloadBytes st, ⟨[]⟩)
  | none => none

/-- A sequence of `write` calls folded through the interceptor. -/
def writeAll (st : BufferedIOHelper) (ws : List Data) : BufferedIOHelper :=
  ws.foldl (fun s d => (write s d).1) st

namespace Legacy

/-- The legacy `BufferedIOHelper` (repository root `lang_helpers/python.py`):
`self.buffer` stores the arguments of `write` unencoded. -/
structure BufferedIOHelper where
  buffer : List Data
deriving DecidableEq

/-- Legacy `write` (lines 13-15): append `s` as given, `return len(s)`. -/
def write (st : BufferedIOHelper) (s : Data) : BufferedIOHelper × Nat :=
  (⟨st.buffer ++ [s]⟩, pyLen s)

/-- Legacy `flush` (lines 17-19): a no-op. -/
def flush (st : BufferedIOHelper) : BufferedIOHelper :=
  st

/-- `"".join(self.buffer)`: succeeds only when every piece is `str`
(CPython raises `TypeError` on a `bytes` element). -/
def joinTexts : List Data → Option String
  | [] => some ""
  | .text s :: rest => (joinTexts rest).map (fun t => s ++ t)
  | .binary _ :: _ => none

/-- Legacy `real_flush` (lines 21-31): pack `len(self.buffer)` — the
number of buffered pieces — as an unsigned long and write it, then
`self.text_io.write("".join(self.buffer))` and flush.  The payload goes
through the text layer, which encodes it (UTF-8 locale, `\n` line
separator on the reference Linux platform).  The buffer is never
cleared: the post-state keeps it as is. -/
def real_flush (st : BufferedIOHelper) : Option (List Nat × BufferedIOHelper) :=
  match packUL st.buffer.length, joinTexts st.buffer with
  | some lenBytes, some payload => some (lenBytes ++ utf8Encode payload, st)
  | _, _ => none

/-- A sequence of legacy `write` calls folded through the interceptor. -/
def writeAll (st : BufferedIOHelper) (ws : List Data) : BufferedIOHelper :=
  ws.foldl (fun s d => (write s d).1) st

end Legacy

/-- A call a client can make on the interceptor. -/
inductive Op where
  | write (s : Data)
  | flush
  | realFlush
deriving DecidableEq

/-- Whether an `Op` is the no-op `flush` call. -/
def Op.isFlush : Op → Bool
  | .flush => true
  | _ => false

/-- One call on the current interceptor: the post-state and the bytes it
puts on the real transport (only `real_flush` emits any). -/
def runOp (st : BufferedIOHelper) : Op → Option (BufferedIOHelper × List Nat)
  | .write s => some ((write st s).1, [])
  | .flush => some (flush st, [])
  | .realFlush => (real_flush st).map (fun r => (r.2, r.1))

/-- A call sequence on the current interceptor: final state and the full
transport byte stream, in production order. -/
def run (st : BufferedIOHelper) : List Op → Option (BufferedIOHelper × List Nat)
  | [] => some (st, [])
  | op :: ops =>
    match runOp st op with
    | some r => (run r.1 ops).map (fun r2 => (r2.1, r.2 ++ r2.2))
    | none => none

/-- Modelled from the spec: the harness-side frame decoder for the
length-prefix wire variant (the harness itself is an external collaborator,
specified only at the wire interface).  A well-formed frame is 8 length
bytes, each a genuine byte, followed by exactly the declared number of
payload bytes. -/
def decodeFrame : List Nat → Option (Nat × List Nat)
  | b0 :: b1 :: b2 :: b3 :: b4 :: b5 :: b6 :: b7 :: rest =>
    if b0 < 256 ∧ b1 < 256 ∧ b2 < 256 ∧ b3 < 256 ∧ b4 < 256 ∧ b5 < 256 ∧
        b6 < 256 ∧ b7 < 256 ∧
        rest.length =
          b0 + 256 * (b1 + 256 * (b2 + 256 * (b3 + 256 * (b4 + 256 *
            (b5 + 256 * (b6 + 256 * b7)))))) then
      some (b0 + 256 * (b1 + 256 * (b2 + 256 * (b3 + 256 * (b4 + 256 *
        (b5 + 256 * (b6 + 256 * b7)))))), rest)
    else none
  | _ => none

/-- The data of an unhandled Python exception as the hook receives it:
exception type name, message, and the rendered lines of the call history. -/
structure ErrorInfo where
  etype : String
  msg : String
  trace : List String

/-- Modelled from the spec: the diagnostic report the uncaught-error hook
renders (the hook's installation, e.g. a `sys.excepthook` assignment, is
code of the repository not under `src/`): the originating call history
followed by the error type and message, as text. -/
def renderReport (e : ErrorInfo) : String :=
  String.join e.trace ++ e.etype ++ ": " ++ e.msg

/-- Modelled from the spec: the uncaught-error hook.  It renders the
report, routes it through the error-channel interceptor's `write`,
invokes that interceptor's `real_flush` directly, and exits the process
with status 1.  Result: the bytes put on the error-channel transport and
the process exit status. -/
def uncaughtHook (e : ErrorInfo) (errStream : BufferedIOHelper) :
    Option (List Nat × Nat) :=
  (real_flush (write errStream (Data.text (renderReport e))).1).map
    (fun r => (r.1, 1))

/-! ### Helper lemmas -/

theorem writeAll_buffer (ws : List Data) (st : BufferedIOHelper) :
    (writeAll st ws).buffer = st.buffer ++ ws.map encodeData := by
  induction ws generalizing st with
  | nil => simp [writeAll]
  | cons w ws ih =>
    simp only [writeAll, List.foldl_cons, List.map_cons] at *
    rw [ih]
    simp [write]

theorem payload_length (st : BufferedIOHelper) :
    (st.buffer.map List.length).sum = (payloadBytes st).length := by
  simp [payloadBytes, List.length_flatten]

theorem real_flush_eq_frame (st : BufferedIOHelper)
    (h : (payloadBytes st).length < 2 ^ 64) :
    real_flush st = some (encodeFrame (payloadBytes st).length (payloadBytes st), ⟨[]⟩) := by
  rw [real_flush, packUL, payload_length, if_pos h, encodeFrame]

theorem real_flush_some (st : BufferedIOHelper) (out : List Nat)
    (st' : BufferedIOHelper) (h : real_flush st = some (out, st')) :
    (payloadBytes st).length < 2 ^ 64 ∧
      out = encodeFrame (payloadBytes st).length (payloadBytes st) ∧ st' = ⟨[]⟩ := by
  rw [real_flush, packUL, payload_length] at h
  by_cases hlt : (payloadBytes st).length < 2 ^ 64
  · rw [if_pos hlt] at h
    simp only [Option.some.injEq, Prod.mk.injEq] at h
    exact ⟨hlt, h.1.symm, h.2.symm⟩
  · rw [if_neg hlt] at h
    simp at h

theorem payloadBytes_write (st : BufferedIOHelper) (s : Data) :
    payloadBytes (write st s).1 = payloadBytes st ++ encodeData s := by
  simp [write, payloadBytes, List.flatten_append]

theorem utf8Bytes_lt_256 (c : Char) : ∀ b ∈ utf8Bytes c, b < 256 := by
  have hc : c.toNat < 0x110000 := by
    rcases c.valid with h | ⟨_, h⟩
    · exact lt_trans h (by norm_num)
    · exact h
  intro b hb
  rw [utf8Bytes] at hb
  split at hb
  · simp only [List.mem_singleton] at hb
    omega
  · split at hb
    · simp only [List.mem_cons, List.not_mem_nil, or_false] at hb
      rcases hb with h | h <;> omega
    · split at hb
      · simp only [List.mem_cons, List.not_mem_nil, or_false] at hb
        rcases hb with h | h | h <;> omega
      · simp only [List.mem_cons, List.not_mem_nil, or_false] at hb
        rcases hb with h | h | h | h <;> omega

theorem utf8Encode_lt_256 (s : String) : ∀ b ∈ utf8Encode s, b < 256 := by
  intro b hb
  rw [utf8Encode] at hb
  obtain ⟨l, hl, hbl⟩ := List.mem_flatten.mp hb
  obtain ⟨c, _, rfl⟩ := List.mem_map.mp hl
  exact utf8Bytes_lt_256 c b hbl

theorem decode_encodeFrame (p : List Nat) (h : p.length < 2 ^ 64) :
    decodeFrame (encodeFrame p.length p) = some (p.length, p) := by
  rw [encodeFrame, packLE8]
  simp only [List.cons_append, List.nil_append, decodeFrame]
  rw [if_pos]
  · congr 1
    refine Prod.ext ?_ rfl
    simp only
    omega
  · refine ⟨Nat.mod_lt _ (by norm_num), Nat.mod_lt _ (by norm_num),
      Nat.mod_lt _ (by norm_num), Nat.mod_lt _ (by norm_num),
      Nat.mod_lt _ (by norm_num), Nat.mod_lt _ (by norm_num),
      Nat.mod_lt _ (by norm_num), Nat.mod_lt _ (by norm_num), ?_⟩
    omega

theorem run_drop_flush (ops : List Op) (st : BufferedIOHelper) :
    run st (ops.filter (fun o => !o.isFlush)) = run st ops := by
  induction ops generalizing st with
  | nil => rfl
  | cons op ops ih =>
    cases op with
    | write s =>
      rw [List.filter_cons_of_pos (by rfl)]
      simp only [run, runOp]
      rw [ih]
    | flush =>
      rw [List.filter_cons_of_neg (by simp [Op.isFlush]), ih]
      simp only [run, runOp, flush]
      cases h : run st ops <;> simp [h]
    | realFlush =>
      rw [List.filter_cons_of_pos (by rfl)]
      simp only [run, runOp]
      cases h : real_flush st <;> simp [h, ih]

theorem run_append (ops1 ops2 : List Op) (st : BufferedIOHelper) :
    run st (ops1 ++ ops2) =
      (run st ops1).bind
        (fun r => (run r.1 ops2).map (fun r2 => (r2.1, r.2 ++ r2.2))) := by
  induction ops1 generalizing st with
  | nil =>
    simp only [List.nil_append, run, Option.some_bind]
    cases run st ops2 <;> simp
  | cons op ops ih =>
    simp only [List.cons_append, run]
    cases hop : runOp st op with
    | none => rfl
    | some r =>
      dsimp only
      rw [show ops.append ops2 = ops ++ ops2 from rfl, ih]
      cases hrun : run r.1 ops with
      | none => simp
      | some r2 =>
        cases hrun2 : run r2.1 ops2 <;> simp [hrun2, List.append_assoc]

/-! ### The claims -/

/-- Claim C1.  The claim as stated fails on the legacy helper
(`lang_helpers/python.py` at the repository root): after the writes
`"ab"`, `"c"` its `real_flush` declares length 2 — `len(self.buffer)`,
the number of buffered pieces — while the payload is the 3 bytes
`"abc"`; after the single multi-byte write `"héllo"` it declares 1
while the payload is 6 bytes.  The current helper
(`src/lang_helpers/python.py`) declares the byte sum, as the claim
states: 3 and 6 respectively. -/
theorem C1_legacy_declares_piece_count :
    Legacy.real_flush (Legacy.writeAll ⟨[]⟩ [Data.text "ab", Data.text "c"]) =
      some ([2, 0, 0, 0, 0, 0, 0, 0] ++ [97, 98, 99],
        ⟨[Data.text "ab", Data.text "c"]⟩) ∧
    real_flush (writeAll ⟨[]⟩ [Data.text "ab", Data.text "c"]) =
      some ([3, 0, 0, 0, 0, 0, 0, 0] ++ [97, 98, 99], ⟨[]⟩) ∧
    Legacy.real_flush (Legacy.writeAll ⟨[]⟩ [Data.text "héllo"]) =
      some ([1, 0, 0, 0, 0, 0, 0, 0] ++ [104, 195, 169, 108, 108, 111],
        ⟨[Data.text "héllo"]⟩) ∧
    real_flush (writeAll ⟨[]⟩ [Data.text "héllo"]) =
      some ([6, 0, 0, 0, 0, 0, 0, 0] ++ [104, 195, 169, 108, 108, 111], ⟨[]⟩) := by
  refine ⟨by decide, by decide, by decide, by decide⟩

/-- Claim C2.  The claim as stated fails on the legacy helper: its
`real_flush` never clears `self.buffer`, so after writing `"a"` and
flushing, the buffer still holds `"a"` and a second `real_flush`
re-emits byte 97 in a new frame.  The current helper's `real_flush`
leaves the buffer empty, as the claim states. -/
theorem C2_legacy_keeps_buffer :
    Legacy.real_flush ⟨[Data.text "a"]⟩ =
      some ([1, 0, 0, 0, 0, 0, 0, 0] ++ [97], ⟨[Data.text "a"]⟩) ∧
    (Legacy.real_flush ⟨[Data.text "a"]⟩).bind (fun r => Legacy.real_flush r.2) =
      some ([1, 0, 0, 0, 0, 0, 0, 0] ++ [97], ⟨[Data.text "a"]⟩) ∧
    real_flush ⟨[[97]]⟩ = some ([1, 0, 0, 0, 0, 0, 0, 0] ++ [97], ⟨[]⟩) := by
  refine ⟨by decide, by decide, by decide⟩

/-- Claim C3.  On the current helper the claim holds on every concrete
run: two `real_flush` calls from the initial state produce two valid
zero-length frames, and a `real_flush` following an emission with no
intervening writes produces a zero-length frame.  The claim as stated
fails on the legacy helper: after `write "a"; real_flush`, a second
`real_flush` with no intervening writes declares length 1 and re-sends
byte 97 instead of producing a zero-length frame. -/
theorem C3_empty_flush_zero_frame :
    run ⟨[]⟩ [Op.realFlush, Op.realFlush] =
      some (⟨[]⟩, [0, 0, 0, 0, 0, 0, 0, 0] ++ [0, 0, 0, 0, 0, 0, 0, 0]) ∧
    run ⟨[]⟩ [Op.write (Data.text "a"), Op.realFlush, Op.realFlush] =
      some (⟨[]⟩, ([1, 0, 0, 0, 0, 0, 0, 0] ++ [97]) ++ [0, 0, 0, 0, 0, 0, 0, 0]) ∧
    (Legacy.real_flush
        (Legacy.writeAll ⟨[]⟩ [Data.text "a"])).bind (fun r => Legacy.real_flush r.2) =
      some ([1, 0, 0, 0, 0, 0, 0, 0] ++ [97], ⟨[Data.text "a"]⟩) := by
  refine ⟨by decide, by decide, by decide⟩

/-- Claim C5.  `flush` is a no-op on both helpers: it returns the state
unchanged and emits nothing, so deleting every `flush` call from an
arbitrary call sequence changes neither the transport byte stream nor
the final state — frame boundaries and content are unaffected. -/
theorem C5_flush_has_no_effect (st : BufferedIOHelper) (ops : List Op)
    (st1 : Legacy.BufferedIOHelper) :
    flush st = st ∧ Legacy.flush st1 = st1 ∧
    run st (ops.filter (fun o => !o.isFlush)) = run st ops :=
  ⟨rfl, rfl, run_drop_flush ops st⟩

/-- Claim C8.  On both helpers `write` returns `len(s)`: the code-point
count for text, the byte count for binary data — independent of the
bytes stored, as the multi-byte example shows: `write "héllo"` returns
5 while 6 bytes are stored. -/
theorem C8_write_returns_presented_length (st : BufferedIOHelper)
    (st1 : Legacy.BufferedIOHelper) (s : String) (b : List Nat) :
    (write st (Data.text s)).2 = s.length ∧
    (write st (Data.binary b)).2 = b.length ∧
    (Legacy.write st1 (Data.text s)).2 = s.length ∧
    (Legacy.write st1 (Data.binary b)).2 = b.length ∧
    (write ⟨[]⟩ (Data.text "héllo")).2 = 5 ∧
    (encodeData (Data.text "héllo")).length = 6 :=
  ⟨rfl, rfl, rfl, rfl, by decide, by decide⟩

/-- Claim C4.  Spec-modelled (the hook's installation is not under
`src/`): on an unhandled error the hook renders the diagnostic report,
routes it through the error-channel interceptor's `write`, invokes
`real_flush` directly, and exits non-zero.  Whenever the hook returns,
the error-channel transport received exactly one well-formed frame —
its payload is the prior buffered bytes followed by the encoded report,
its declared length is that payload's byte length — and the exit status
is non-zero. -/
theorem C4_hook_emits_one_frame_exits_nonzero (e : ErrorInfo)
    (st : BufferedIOHelper) (out : List Nat) (code : Nat)
    (h : uncaughtHook e st = some (out, code)) :
    out = encodeFrame (payloadBytes st ++ utf8Encode (renderReport e)).length
        (payloadBytes st ++ utf8Encode (renderReport e)) ∧
    decodeFrame out =
      some ((payloadBytes st ++ utf8Encode (renderReport e)).length,
        payloadBytes st ++ utf8Encode (renderReport e)) ∧
    code ≠ 0 := by
  rw [uncaughtHook] at h
  cases hf : real_flush (write st (Data.text (renderReport e))).1 with
  | none => rw [hf] at h; cases h
  | some r =>
    rw [hf] at h
    simp only [Option.map_some', Option.some.injEq, Prod.mk.injEq] at h
    obtain ⟨rfl, rfl⟩ := h
    obtain ⟨hlt, hout, -⟩ := real_flush_some _ r.1 r.2 hf
    rw [payloadBytes_write] at hlt hout
    refine ⟨hout, ?_, by decide⟩
    rw [hout]
    exact decode_encodeFrame _ hlt

/-- Claim C4 witness: the hook applied to a concrete error on an empty
error channel. -/
theorem C4_witness :
    ([16, 0, 0, 0, 0, 0, 0, 0] ++ utf8Encode "ValueError: boom" : List Nat) =
      encodeFrame
        (payloadBytes ⟨[]⟩ ++ utf8Encode (renderReport ⟨"ValueError", "boom", []⟩)).length
        (payloadBytes ⟨[]⟩ ++ utf8Encode (renderReport ⟨"ValueError", "boom", []⟩)) :=
  (C4_hook_emits_one_frame_exits_nonzero ⟨"ValueError", "boom", []⟩ ⟨[]⟩
    ([16, 0, 0, 0, 0, 0, 0, 0] ++ utf8Encode "ValueError: boom") 1 (by decide)).1

/-- Wire format of the current helper's `real_flush`: a fixed-width
(8-byte, the platform word size) unsigned integer in native
(little-endian) byte order whose value is the payload's byte length,
immediately followed by exactly the raw payload bytes. -/
theorem real_flush_wire_format (st : BufferedIOHelper) (out : List Nat)
    (st' : BufferedIOHelper) (h : real_flush st = some (out, st')) :
    out = packLE8 (payloadBytes st).length ++ payloadBytes st ∧
    (packLE8 (payloadBytes st).length).length = 8 ∧
    (∀ b ∈ packLE8 (payloadBytes st).length, b < 256) ∧
    List.foldr (fun b acc => b + 256 * acc) 0 (packLE8 (payloadBytes st).length) =
      (payloadBytes st).length := by
  obtain ⟨hlt, hout, -⟩ := real_flush_some st out st' h
  refine ⟨hout, rfl, ?_, ?_⟩
  · intro b hb
    simp only [packLE8, List.mem_cons, List.not_mem_nil, or_false] at hb
    rcases hb with rfl | rfl | rfl | rfl | rfl | rfl | rfl | rfl <;>
      exact Nat.mod_lt _ (by norm_num)
  · simp only [packLE8, List.foldr]
    omega

/-- Claim C6.  The claim as stated fails on the legacy helper: after the
writes `"no"`, `"pe"` its `real_flush` puts a length field declaring 2 —
`len(self.buffer)`, the piece count — on the wire, followed by 4 payload
bytes, so the field does not give the payload length in bytes and is not
followed by that many bytes; the emitted bytes do not decode as a frame.
The current helper's `real_flush` at the same writes emits the 8-byte
little-endian payload byte length 4 followed by exactly those 4 raw
bytes, which decodes as exactly one frame. -/
theorem C6_legacy_frame_not_length_prefixed :
    Legacy.real_flush (Legacy.writeAll ⟨[]⟩ [Data.text "no", Data.text "pe"]) =
      some ([2, 0, 0, 0, 0, 0, 0, 0] ++ [110, 111, 112, 101],
        ⟨[Data.text "no", Data.text "pe"]⟩) ∧
    decodeFrame ([2, 0, 0, 0, 0, 0, 0, 0] ++ [110, 111, 112, 101]) = none ∧
    real_flush (writeAll ⟨[]⟩ [Data.text "no", Data.text "pe"]) =
      some ([4, 0, 0, 0, 0, 0, 0, 0] ++ [110, 111, 112, 101], ⟨[]⟩) ∧
    decodeFrame ([4, 0, 0, 0, 0, 0, 0, 0] ++ [110, 111, 112, 101]) =
      some (4, [110, 111, 112, 101]) := by
  refine ⟨by decide, by decide, by decide, by decide⟩

/-- Claim C7.  Round trip: decoding any well-formed frame into its
(length, payload) pair and re-encoding that pair reproduces the identical
wire bytes. -/
theorem C7_frame_roundtrip (bs : List Nat) (n : Nat) (p : List Nat)
    (h : decodeFrame bs = some (n, p)) : encodeFrame n p = bs := by
  rcases bs with _ | ⟨b0, bs⟩; · cases h
  rcases bs with _ | ⟨b1, bs⟩; · cases h
  rcases bs with _ | ⟨b2, bs⟩; · cases h
  rcases bs with _ | ⟨b3, bs⟩; · cases h
  rcases bs with _ | ⟨b4, bs⟩; · cases h
  rcases bs with _ | ⟨b5, bs⟩; · cases h
  rcases bs with _ | ⟨b6, bs⟩; · cases h
  rcases bs with _ | ⟨b7, rest⟩; · cases h
  simp only [decodeFrame] at h
  split at h
  · rename_i hc
    simp only [Option.some.injEq, Prod.mk.injEq] at h
    obtain ⟨rfl, rfl⟩ := h
    simp only [encodeFrame, packLE8, List.cons_append, List.nil_append,
      List.cons.injEq]
    exact ⟨by omega, by omega, by omega, by omega, by omega, by omega, by omega,
      by omega, trivial⟩
  · cases h

/-- Claim C7 witness: the round trip at the concrete frame for `"ab"`. -/
theorem C7_witness :
    decodeFrame [2, 0, 0, 0, 0, 0, 0, 0, 97, 98] = some (2, [97, 98]) ∧
    encodeFrame 2 [97, 98] = [2, 0, 0, 0, 0, 0, 0, 0, 97, 98] :=
  ⟨by decide, C7_frame_roundtrip [2, 0, 0, 0, 0, 0, 0, 0, 97, 98] 2 [97, 98]
    (by decide)⟩

/-- Claim C9.  Writes are never rejected: after any successful call
history whatsoever, a further `write` succeeds, appends exactly its
encoded argument to the buffer, and emits nothing; the legacy `write`
likewise appends unconditionally in every state. -/
theorem C9_write_never_rejected (st st' : BufferedIOHelper) (ops : List Op)
    (out : List Nat) (s : Data) (st1 : Legacy.BufferedIOHelper)
    (h : run st ops = some (st', out)) :
    run st (ops ++ [Op.write s]) = some (⟨st'.buffer ++ [encodeData s]⟩, out) ∧
    Legacy.write st1 s = (⟨st1.buffer ++ [s]⟩, pyLen s) := by
  refine ⟨?_, rfl⟩
  rw [run_append, h]
  simp [run, runOp, write]

/-- Claim C9 witness: a write after a write-and-emit history, and a
legacy write, both succeed. -/
theorem C9_witness :
    run ⟨[]⟩ ([Op.write (Data.text "a"), Op.realFlush] ++ [Op.write (Data.text "b")]) =
      some (⟨[] ++ [encodeData (Data.text "b")]⟩, [1, 0, 0, 0, 0, 0, 0, 0] ++ [97]) ∧
    Legacy.write ⟨[]⟩ (Data.text "b") = (⟨[] ++ [Data.text "b"]⟩, pyLen (Data.text "b")) :=
  C9_write_never_rejected ⟨[]⟩ ⟨[]⟩ [Op.write (Data.text "a"), Op.realFlush]
    ([1, 0, 0, 0, 0, 0, 0, 0] ++ [97]) (Data.text "b") ⟨[]⟩ (by decide)

/-- Claim C10.  A `bytes` argument is stored unmodified (`b = s`, no
re-encoding), `write` returns its byte length, and it appears verbatim,
in write order, in the next emitted frame's payload — between the bytes
buffered before it and the encodings of the writes after it. -/
theorem C10_binary_stored_verbatim (st : BufferedIOHelper) (b : List Nat)
    (ws : List Data) (out : List Nat) (st' : BufferedIOHelper)
    (h : real_flush (writeAll (write st (Data.binary b)).1 ws) = some (out, st')) :
    encodeData (Data.binary b) = b ∧
    (write st (Data.binary b)).2 = b.length ∧
    (write st (Data.binary b)).1.buffer = st.buffer ++ [b] ∧
    out = encodeFrame (payloadBytes st ++ b ++ (ws.map encodeData).flatten).length
        (payloadBytes st ++ b ++ (ws.map encodeData).flatten) := by
  obtain ⟨hlt, hout, -⟩ := real_flush_some _ out st' h
  have hp : payloadBytes (writeAll (write st (Data.binary b)).1 ws) =
      payloadBytes st ++ b ++ (ws.map encodeData).flatten := by
    simp [payloadBytes, writeAll_buffer, write, encodeData, List.flatten_append,
      List.append_assoc]
  rw [hp] at hout
  exact ⟨rfl, rfl, rfl, hout⟩

/-- Claim C10 witness: the bytes `[0, 255]` written before a text write,
then emitted. -/
theorem C10_witness :
    ([3, 0, 0, 0, 0, 0, 0, 0] ++ [0, 255, 120] : List Nat) =
      encodeFrame
        (payloadBytes ⟨[]⟩ ++ [0, 255] ++ ([Data.text "x"].map encodeData).flatten).length
        (payloadBytes ⟨[]⟩ ++ [0, 255] ++ ([Data.text "x"].map encodeData).flatten) :=
  (C10_binary_stored_verbatim ⟨[]⟩ [0, 255] [Data.text "x"]
    ([3, 0, 0, 0, 0, 0, 0, 0] ++ [0, 255, 120]) ⟨[]⟩ (by decide)).2.2.2

end SciMarkdown
